import Mathlib

/-!
# Verification of the BadBeats prediction scheduling/generation workflow

Shallow embedding of the core workflow of the BadBeats backend:
confidence calibration (`app/llm/langchain_model.py`), news/injury lookups
(`app/services/news_ingestion.py`), game-data aggregation and the Celery
tasks (`app/workers/tasks.py`, `app/workers/chron_schedule.py`), and the
prediction store (`app/services/prediction_service.py`).

External effects (HTTP fetches, the LLM call, the Supabase store, the
clock) are passed in explicitly: a fallible call is an `Except String`
value (an `Except.error` models a raised exception), timestamps are
integers (minutes, unless noted otherwise), and Python floats are
rationals.  Dynamic dictionaries are modelled by structures holding
exactly the fields the workflow reads or writes.
-/

namespace BadBeats

/-! ## Confidence calibration (`LangChainPredictionModel._calibrate_confidence`) -/

/-- `_calibrate_confidence` from `app/llm/langchain_model.py`:
`calibrated = (1 - regression_strength) * raw_confidence + regression_strength * mean`
with `mean = 0.7`, `regression_strength = 0.3`, then
`return max(0.0, min(1.0, calibrated))`. -/
def calibrate_confidence (raw_confidence : ℚ) : ℚ :=
  let mean : ℚ := 7/10
  let regression_strength : ℚ := 3/10
  let calibrated := (1 - regression_strength) * raw_confidence + regression_strength * mean
  max 0 (min 1 calibrated)

/-! ## News and injury lookups (`app/services/news_ingestion.py`)

`get_recent_news_for_team` and `get_team_injury_report` both call
`fetch_all_news_sources` and filter the result; each wraps its whole body
in `try/except` and returns `[]` on any exception.  The result of the
`fetch_all_news_sources` call is passed in as an `Except` value: an
`Except.error` models any exception escaping into the caller's body. -/

/-- A news article as the workflow reads it: `title`, `content`, `summary`,
`published_date` (absent / unparsable / parsed timestamp) and the team
entities extracted into `entities['teams']`. -/
structure Article where
  title : String
  content : String
  summary : String
  /-- `none`: no `published_date` key; `some none`: present but
  `datetime.fromisoformat` raises; `some (some t)`: parses to time `t`. -/
  published_date : Option (Option ℤ)
  entities_teams : List String
deriving DecidableEq, Repr

/-- An injury-report entry: `team`, `player`, `status`, `injury`. -/
structure InjuryReport where
  team : String
  player : String
  status : String
  injury : String
deriving DecidableEq, Repr

/-- The dictionary returned by `fetch_all_news_sources`. -/
structure NewsBundle where
  articles : List Article
  injury_reports : List InjuryReport
deriving DecidableEq, Repr

/-- Python's `needle in haystack` on lower-cased strings. -/
def containsLower (haystack needle : String) : Bool :=
  decide (needle.toLower.toList <:+: haystack.toLower.toList)

/-- Sort key used by `fetch_all_news_sources`:
`datetime.fromisoformat(x['published_date']) if x.get('published_date') else datetime.min`.
`datetime.min` is modelled as a sentinel far in the past; articles whose
date is present in this code path are the parsed ones. -/
def news_sort_key (a : Article) : ℤ :=
  match a.published_date with
  | some (some t) => t
  | _ => -(10^18)

/-- `fetch_all_news_sources`: each of the four sources is fetched with
`asyncio.gather(..., return_exceptions=True)`; a failed source contributes
nothing, the articles are sorted most-recent-first. -/
def fetch_all_news_sources (espn nba_com bleacher : Except String (List Article))
    (injuries : Except String (List InjuryReport)) : NewsBundle :=
  let pick : Except String (List Article) → List Article :=
    fun r => match r with | .ok l => l | .error _ => []
  let articles := pick espn ++ pick nba_com ++ pick bleacher
  let injury_reports := match injuries with | .ok l => l | .error _ => []
  { articles := articles.mergeSort (fun a b => decide (news_sort_key b ≤ news_sort_key a))
    injury_reports := injury_reports }

/-- `get_recent_news_for_team(team_name, days)`: filter all fetched articles
down to those mentioning the team (title, content or extracted entities),
then keep articles newer than `now - days`; an article with an absent or
unparsable date is included anyway.  The whole body is wrapped in
`try/except Exception: return []`, so a failing `fetch_all_news_sources`
call (the `Except.error` case) yields `[]`. -/
def get_recent_news_for_team (fetch_result : Except String NewsBundle)
    (team_name : String) (now days : ℤ) : List Article :=
  match fetch_result with
  | .error _ => []
  | .ok all_news =>
    let team_articles := all_news.articles.filter (fun a =>
      containsLower a.title team_name || containsLower a.content team_name
        || a.entities_teams.any (fun t => containsLower t team_name))
    let cutoff_date := now - days
    team_articles.filter (fun a =>
      match a.published_date with
      | some (some pub_date) => decide (cutoff_date ≤ pub_date)
      | some none => true
      | none => true)

/-- `get_team_injury_report(team_name)`: filter all fetched injury reports by
team name; the whole body is wrapped in `try/except Exception: return []`. -/
def get_team_injury_report (fetch_result : Except String NewsBundle)
    (team_name : String) : List InjuryReport :=
  match fetch_result with
  | .error _ => []
  | .ok all_news =>
    all_news.injury_reports.filter (fun r => containsLower r.team team_name)

/-! ## Scheduling (`app/workers/chron_schedule.py` and
`schedule_game_predictions` in `app/workers/tasks.py`)

Times are integers in minutes. -/

/-- `calculate_prediction_time(game_time) = game_time - timedelta(hours=1)`. -/
def calculate_prediction_time (game_time : ℤ) : ℤ :=
  game_time - 60

/-- `should_schedule_prediction(game_id, game_time)`: skip if the game is in
the past or happening now (`game_time <= now`), skip if less than 15
minutes remain until prediction time; otherwise schedule.  The existing-
prediction check is a TODO in the source and always passes.  The current
time is passed in explicitly. -/
def should_schedule_prediction (_game_id : ℤ) (game_time now : ℤ) : Bool :=
  if game_time ≤ now then false
  else if calculate_prediction_time game_time - now < 15 then false
  else true

/-- A game dictionary as read by the scheduling tasks: `id` and `date`
may be absent; a present date may fail to parse. -/
structure UpcomingGame where
  id : Option ℤ
  /-- `none`: no `date` key; `some none`: `datetime.fromisoformat` raises;
  `some (some t)`: parses to start time `t`. -/
  date : Option (Option ℤ)
deriving DecidableEq, Repr

/-- Per-game body of the loop in `schedule_game_predictions`: games with a
missing or unparsable date are skipped (`continue`), otherwise the
prediction is scheduled at `eta = prediction_time = game_date - 1h`
whenever `prediction_time > current_time`.  Returns the dispatched
`(game_id, eta)` pair, if any. -/
def schedule_one (now : ℤ) (g : UpcomingGame) : Option (Option ℤ × ℤ) :=
  match g.date with
  | none => none
  | some none => none
  | some (some game_date) =>
    let prediction_time := game_date - 60
    if now < prediction_time then some (g.id, prediction_time) else none

/-- `schedule_game_predictions`: iterate over the fetched upcoming games in
order, dispatching `generate_prediction` with `eta` one hour before each
future game; no sorting and no existing-prediction check is performed. -/
def schedule_game_predictions (now : ℤ) (upcoming_games : List UpcomingGame) :
    List (Option ℤ × ℤ) :=
  upcoming_games.filterMap (schedule_one now)

/-! ## Data aggregation (`_prepare_game_data` in `app/workers/tasks.py`) -/

/-- Stat entries are opaque payloads to this workflow (fetched, stored in
`structured_data`, and only ever passed along); modelled as strings. -/
abbrev TeamStat := String

/-- The object returned by `get_team_stats_averages`, read as
`stats.get('data', [])`. -/
structure StatsResponse where
  data : List TeamStat
deriving DecidableEq, Repr

/-- Team sub-dictionary of a game record: `id` and `name` may be absent. -/
structure TeamInfo where
  id : Option ℤ
  name : Option String
deriving DecidableEq, Repr

/-- The game record returned by `get_game_by_id`, as read by
`_prepare_game_data`. -/
structure GameInfo where
  home_team : TeamInfo
  visitor_team : TeamInfo
  date : Option String
deriving DecidableEq, Repr

/-- `structured_data` as assembled by `_prepare_game_data`. -/
structure StructuredData where
  home_team_id : Option ℤ
  away_team_id : Option ℤ
  home_team_stats : List TeamStat
  away_team_stats : List TeamStat
  spread : ℚ
deriving DecidableEq, Repr

/-- `unstructured_data` as assembled by `_prepare_game_data`. -/
structure UnstructuredData where
  home_team_news : List Article
  away_team_news : List Article
  home_team_injuries : List InjuryReport
  away_team_injuries : List InjuryReport
deriving DecidableEq, Repr

/-- The dictionary returned by a successful `_prepare_game_data` call. -/
structure PreparedGameData where
  game_id : ℤ
  home_team : String
  away_team : String
  spread : ℚ
  game_date : String
  structured_data : StructuredData
  unstructured_data : UnstructuredData
deriving DecidableEq, Repr

/-- `_prepare_game_data(game_id)`.  The six awaited collaborator calls are
passed in as `Except` values (`Except.error` models a raised exception).
Control flow of the source: a raised or falsy `get_game_by_id` result
yields `None`; the six sub-fetches are combined with a bare
`asyncio.gather` (no `return_exceptions`), so any raising sub-fetch
propagates to the surrounding `try/except`, which also yields `None`;
otherwise the data dictionary is assembled, with the spread hard-coded to
`-3.5` and `game_date` defaulting to the current time's ISO string. -/
def prepare_game_data (game_id : ℤ)
    (game_lookup : Except String (Option GameInfo))
    (home_stats away_stats : Except String StatsResponse)
    (home_news away_news : Except String (List Article))
    (home_inj away_inj : Except String (List InjuryReport))
    (now_iso : String) : Option PreparedGameData :=
  match game_lookup with
  | .error _ => none
  | .ok none => none
  | .ok (some game_info) =>
    let home_team_id := game_info.home_team.id
    let away_team_id := game_info.visitor_team.id
    let home_team_name := game_info.home_team.name.getD "Unknown"
    let away_team_name := game_info.visitor_team.name.getD "Unknown"
    let spread : ℚ := -(7/2)
    let game_date := game_info.date.getD now_iso
    match home_stats, away_stats, home_news, away_news, home_inj, away_inj with
    | .ok hs, .ok as2, .ok hn, .ok an, .ok hi, .ok ai =>
      some
        { game_id := game_id
          home_team := home_team_name
          away_team := away_team_name
          spread := spread
          game_date := game_date
          structured_data :=
            { home_team_id := home_team_id
              away_team_id := away_team_id
              home_team_stats := hs.data
              away_team_stats := as2.data
              spread := spread }
          unstructured_data :=
            { home_team_news := hn
              away_team_news := an
              home_team_injuries := hi
              away_team_injuries := ai } }
    | _, _, _, _, _, _ => none

/-- `True` iff the modelled collaborator call raised. -/
def fetchFailed {α : Type} : Except String α → Bool
  | .error _ => true
  | .ok _ => false

/-! ## Prediction store (`create_prediction` in
`app/services/prediction_service.py`) and the generation task -/

/-- The `PredictionCreate` schema (`app/schemas/predictions.py`):
`agent_id : str`, `game_id : int`, `pick`, `logic`, `confidence`,
`result`. -/
structure PredictionCreateRec where
  agent_id : String
  game_id : ℤ
  pick : String
  logic : String
  confidence : ℚ
  result : String
deriving DecidableEq, Repr

/-- A row of the Supabase `predictions` table; `id` is the freshly drawn
`uuid4`, modelled as a counter value. -/
structure PredictionRow where
  id : ℕ
  agent_id : String
  game_id : ℤ
  pick : String
  logic : String
  confidence : ℚ
  result : String
deriving DecidableEq, Repr

/-- The `predictions` table together with the supply of fresh UUIDs. -/
structure PredictionsTable where
  rows : List PredictionRow
  next_uuid : ℕ
deriving DecidableEq, Repr

/-- `create_prediction(prediction_in)`: draw a fresh `uuid4`, build the
record and insert it into the `predictions` table.  No lookup of any kind
is made before the insert. -/
def create_prediction (p : PredictionCreateRec) (db : PredictionsTable) :
    PredictionRow × PredictionsTable :=
  let row : PredictionRow :=
    { id := db.next_uuid
      agent_id := p.agent_id
      game_id := p.game_id
      pick := p.pick
      logic := p.logic
      confidence := p.confidence
      result := p.result }
  (row, { rows := db.rows ++ [row], next_uuid := db.next_uuid + 1 })

/-- The `PredictionResult` produced by `LangChainPredictionModel.predict`. -/
structure EngineResult where
  agent_id : String
  game_id : ℤ
  pick : String
  logic : String
  confidence : ℚ
  result : String
deriving DecidableEq, Repr

/-- Outcome of one execution of the `generate_prediction` Celery task. -/
inductive GenOutcome where
  /-- `_prepare_game_data` returned `None`: the task returns an error
  summary without invoking the prediction model. -/
  | errorNoData
  /-- The model and the insert succeeded; carries the saved row. -/
  | success (saved : PredictionRow)
  /-- An exception was raised: the task calls `self.retry(exc=e)`. -/
  | taskRetry (msg : String)
deriving DecidableEq, Repr

/-- One execution of the `generate_prediction` task body: with no game data
it returns an error summary (the engine is never consulted — the outcome
is the same for every `engine` value); otherwise the engine's
`PredictionResult` is turned into a `PredictionCreate` and inserted via
`create_prediction`; an engine failure raises into `self.retry`.  There
is no check for an existing prediction anywhere on this path. -/
def generate_prediction_once (game_data : Option PreparedGameData)
    (engine : Except String EngineResult) (db : PredictionsTable) :
    GenOutcome × PredictionsTable :=
  match game_data with
  | none => (.errorNoData, db)
  | some _ =>
    match engine with
    | .error e => (.taskRetry e, db)
    | .ok pr =>
      let pc : PredictionCreateRec :=
        { agent_id := pr.agent_id
          game_id := pr.game_id
          pick := pr.pick
          logic := pr.logic
          confidence := pr.confidence
          result := pr.result }
      let rd := create_prediction pc db
      (.success rd.1, rd.2)

/-- Number of rows of the `predictions` table for one
`(agent_id, game_id)` pair. -/
def rows_for (db : PredictionsTable) (agent : String) (game : ℤ) : ℕ :=
  (db.rows.filter (fun r => r.agent_id == agent && r.game_id == game)).length

/-- Favorite/underdog selection of `_prepare_prediction_prompt`
(`app/llm/langchain_model.py`): `spread_value = abs(spread)`; a positive
spread makes the away team the favorite, otherwise the home team; the
prompt then reads `"{favorite} favored by {spread_value} points"`.
Returns `(favorite, underdog, spread_value)`. -/
def favored_description (home_team away_team : String) (spread : ℚ) :
    String × String × ℚ :=
  let spread_value := |spread|
  if 0 < spread then (away_team, home_team, spread_value)
  else (home_team, away_team, spread_value)

/-! ## Retry layers around `generate_prediction`

Two independent retry mechanisms wrap an engine call:
- `tenacity` on `LangChainPredictionModel.predict`:
  `stop=stop_after_attempt(3)`,
  `wait=wait_exponential(multiplier=1, min=2, max=10)`;
- Celery on the `generate_prediction` task: `autoretry_for=(Exception,)`,
  `retry_kwargs={"max_retries": 3, "countdown": 300}`, and the body's
  blanket `except Exception as e: raise self.retry(exc=e)`.  Because the
  body's explicit `self.retry` (called with no countdown) raises `Retry`
  before the autoretry wrapper can act, every retry is scheduled with
  Celery's `Task.default_retry_delay` of 180 seconds; the configured
  `countdown=300` never takes effect.  Up to 4 executions of the task in
  total.

Attempt outcomes are passed in as oracles: `ok n = true` means the `n`-th
attempt (1-based) succeeds. -/

/-- tenacity's `wait_exponential(multiplier, min, max)` evaluated after the
attempt numbered `attempt_number`:
`max(max(0, min), min(multiplier * 2**attempt_number, max))`. -/
def tenacity_wait_exponential (multiplier min_w max_w : ℚ) (attempt_number : ℕ) : ℚ :=
  max (max 0 min_w) (min (multiplier * 2 ^ attempt_number) max_w)

/-- The wait configured on `predict`: `multiplier=1, min=2, max=10`. -/
def predict_wait (attempt_number : ℕ) : ℚ :=
  tenacity_wait_exponential 1 2 10 attempt_number

/-- `predict` under its tenacity decorator: up to `stop_after_attempt(3)`
attempts, stopping at the first success.  Returns
`(succeeded, attempts made, waits slept between attempts)`. -/
def predict_with_retry (ok : ℕ → Bool) : Bool × ℕ × List ℚ :=
  if ok 1 then (true, 1, [])
  else if ok 2 then (true, 2, [predict_wait 1])
  else (ok 3, 3, [predict_wait 1, predict_wait 2])

/-- Number of executions of the `generate_prediction` task under Celery's
autoretry: the initial run plus up to `max_retries = 3` retries, stopping
at the first successful run. -/
def generate_prediction_task_runs (run_ok : ℕ → Bool) : ℕ :=
  if run_ok 1 then 1 else if run_ok 2 then 2 else if run_ok 3 then 3 else 4

/-- The countdowns slept between task executions: each retry is scheduled
by the body's `raise self.retry(exc=e)` with no countdown argument, i.e.
at `Task.default_retry_delay = 180` seconds (the `countdown=300` in
`retry_kwargs` is dead configuration on this path). -/
def generate_prediction_retry_delays (run_ok : ℕ → Bool) : List ℚ :=
  (List.range (generate_prediction_task_runs run_ok - 1)).map (fun _ => 180)

/-- A task run succeeds iff `predict` succeeds within its 3 tenacity
attempts (given the per-run engine oracle `engine_ok r`). -/
def run_engine_ok (engine_ok : ℕ → ℕ → Bool) (r : ℕ) : Bool :=
  (predict_with_retry (engine_ok r)).1

/-- Total number of engine attempts made across all Celery executions of
one `generate_prediction` dispatch. -/
def total_engine_attempts (engine_ok : ℕ → ℕ → Bool) : ℕ :=
  ((List.range (generate_prediction_task_runs (run_engine_ok engine_ok))).map
    (fun r => (predict_with_retry (engine_ok (r + 1))).2.1)).sum

/-- The always-failing engine oracle. -/
def engine_always_fails : ℕ → ℕ → Bool := fun _ _ => false

/-! ## Emergency sweep (`reschedule_missed_predictions` in
`app/workers/tasks.py`, `handle_emergency_prediction` in
`app/workers/chron_schedule.py`)

Times in minutes; the dispatch countdown is the literal `5` seconds the
source passes to `apply_async`. -/

/-- The filter loop of `reschedule_missed_predictions`: keep games whose
date parses and satisfies `now < game_date < now + 3h`; missing or
unparsable dates are skipped. -/
def sweep_imminent (now : ℤ) (upcoming_games : List UpcomingGame) : List UpcomingGame :=
  upcoming_games.filter (fun g =>
    match g.date with
    | some (some game_date) => decide (now < game_date) && decide (game_date < now + 180)
    | _ => false)

/-- The dispatch loop of `reschedule_missed_predictions`: for each imminent
game, `if not game_id: continue` skips both a missing and a falsy
(zero) id, otherwise one `generate_prediction` is dispatched with
`countdown=5`; no check for an existing prediction is made (the source
carries a TODO and "we'll just generate a prediction").  Returns the
dispatched `(game_id, countdown)` pairs. -/
def reschedule_missed_predictions (now : ℤ) (upcoming_games : List UpcomingGame) :
    List (ℤ × ℤ) :=
  (sweep_imminent now upcoming_games).filterMap (fun g =>
    match g.id with
    | none => none
    | some game_id => if game_id = 0 then none else some (game_id, 5))

/-- `handle_emergency_prediction(game_id, game_time)`: skip past games and
games more than 3 hours out; otherwise dispatch one `generate_prediction`
with `countdown=5` and `expires=game_time`, and report `True`.  Returns
the flag and the dispatched `(game_id, countdown, expires)`. -/
def handle_emergency_prediction (game_id : ℤ) (game_time now : ℤ) :
    Bool × Option (ℤ × ℤ × ℤ) :=
  if game_time ≤ now then (false, none)
  else if 180 < game_time - now then (false, none)
  else (true, some (game_id, 5, game_time))

/-! ## Ingestion (`ingest_nba_data` in `app/workers/tasks.py`) -/

/-- A value of the summary dictionary a task returns. -/
inductive JsonVal where
  | str (s : String)
  | nat (n : ℕ)
deriving DecidableEq, Repr

/-- `ingest_nba_data`: fetch the upcoming games; on success return the
summary dictionary `{"status": "success", "games_ingested": len(...),
"timestamp": ...}`; any exception is re-raised through `self.retry`,
aborting the whole run (there is no per-record processing at all). -/
def ingest_nba_data (upcoming : Except String (List UpcomingGame))
    (timestamp : String) : Except String (List (String × JsonVal)) :=
  match upcoming with
  | .error e => .error e
  | .ok games =>
    .ok [("status", .str "success"),
         ("games_ingested", .nat games.length),
         ("timestamp", .str timestamp)]

/-- The keys of a task's summary dictionary (empty when the task raised). -/
def summary_keys : Except String (List (String × JsonVal)) → List String
  | .error _ => []
  | .ok kvs => kvs.map Prod.fst

end BadBeats

namespace BadBeats

/-- C3: for every raw confidence, `_calibrate_confidence` returns exactly
`clamp(0.7*c_raw + 0.21, 0, 1)`; it maps `0 ↦ 0.21`, `1 ↦ 0.91`,
`0.7 ↦ 0.70`, is monotone non-decreasing, and its value always lies in
`[0, 1]`. -/
theorem calibrate_confidence_spec :
    (∀ c : ℚ, calibrate_confidence c = max 0 (min 1 (7/10 * c + 21/100)))
    ∧ calibrate_confidence 0 = 21/100
    ∧ calibrate_confidence 1 = 91/100
    ∧ calibrate_confidence (7/10) = 7/10
    ∧ (∀ a b : ℚ, a ≤ b → calibrate_confidence a ≤ calibrate_confidence b)
    ∧ (∀ c : ℚ, 0 ≤ calibrate_confidence c ∧ calibrate_confidence c ≤ 1) := by
  have hform : ∀ c : ℚ, calibrate_confidence c = max 0 (min 1 (7/10 * c + 21/100)) := by
    intro c
    unfold calibrate_confidence
    norm_num
  refine ⟨hform, ?_, ?_, ?_, ?_, ?_⟩
  · rw [hform]; norm_num
  · rw [hform]; norm_num
  · rw [hform]; norm_num
  · intro a b hab
    rw [hform, hform]
    have h1 : 7/10 * a + 21/100 ≤ 7/10 * b + 21/100 := by linarith
    exact max_le_max le_rfl (min_le_min le_rfl h1)
  · intro c
    rw [hform]
    refine ⟨le_max_left 0 _, max_le (by norm_num) ?_⟩
    exact min_le_left 1 _

/-- Witness for C3 at concrete inputs: monotonicity applied at `1/2 ≤ 3/4`. -/
theorem calibrate_confidence_spec_witness :
    calibrate_confidence (1/2) ≤ calibrate_confidence (3/4) :=
  calibrate_confidence_spec.2.2.2.2.1 (1/2) (3/4) (by norm_num)

/-- C10: for every team name, an internal failure of the news pipeline (the
`fetch_all_news_sources` call raising, or every news source failing) makes
`get_recent_news_for_team` and `get_team_injury_report` return `[]` rather
than raise — the same value a team with no recent news or injuries gets. -/
theorem news_lookups_never_raise :
    (∀ (e team : String) (now days : ℤ),
        get_recent_news_for_team (Except.error e) team now days = [])
    ∧ (∀ (e team : String), get_team_injury_report (Except.error e) team = [])
    ∧ (∀ (e1 e2 e3 e4 team : String) (now days : ℤ),
        get_recent_news_for_team
          (Except.ok (fetch_all_news_sources (Except.error e1) (Except.error e2)
            (Except.error e3) (Except.error e4))) team now days = [])
    ∧ (∀ (e1 e2 e3 e4 team : String),
        get_team_injury_report
          (Except.ok (fetch_all_news_sources (Except.error e1) (Except.error e2)
            (Except.error e3) (Except.error e4))) team = [])
    ∧ (∀ (team : String) (now days : ℤ),
        get_recent_news_for_team (Except.ok ⟨[], []⟩) team now days = [])
    ∧ (∀ (team : String), get_team_injury_report (Except.ok ⟨[], []⟩) team = []) := by
  refine ⟨fun _ _ _ _ => rfl, fun _ _ => rfl, ?_, ?_, ?_, ?_⟩
  · intro e1 e2 e3 e4 team now days
    simp [get_recent_news_for_team, fetch_all_news_sources]
  · intro e1 e2 e3 e4 team
    simp [get_team_injury_report, fetch_all_news_sources]
  · intro team now days
    rfl
  · intro team
    rfl

/-- Dispatch characterization of `schedule_one`. -/
theorem schedule_one_eq_some (now : ℤ) (g : UpcomingGame) (gid : Option ℤ) (eta : ℤ) :
    schedule_one now g = some (gid, eta) ↔
      g.id = gid ∧ g.date = some (some (eta + 60)) ∧ now < eta := by
  rcases g with ⟨id, date⟩
  rcases date with _ | od
  · simp [schedule_one]
  rcases od with _ | d
  · simp [schedule_one]
  simp only [schedule_one]
  split_ifs with h
  · simp only [Option.some.injEq, Prod.mk.injEq]
    constructor
    · rintro ⟨rfl, rfl⟩
      exact ⟨rfl, by rw [show (d - 60 + 60 : ℤ) = d from by omega], by omega⟩
    · rintro ⟨rfl, hdate, h3⟩
      subst hdate
      exact ⟨rfl, by omega⟩
  · constructor
    · intro h2
      simp at h2
    · rintro ⟨-, hdate, h3⟩
      have hdate2 : some (some d) = some (some (eta + 60)) := hdate
      simp only [Option.some.injEq] at hdate2
      subst hdate2
      omega

/-- C2 (amended): the scheduler has no `(lead, lookahead)` due window and no
completed-prediction check.  `should_schedule_prediction` passes iff the
game starts at least 75 minutes in the future (fixed 1-hour lead plus a
15-minute slack); `schedule_game_predictions` dispatches a game iff its
parsed start time minus the fixed 1-hour lead lies strictly in the future,
regardless of any existing prediction; and the output preserves the input
order of games instead of sorting by start time. -/
theorem scheduling_no_due_window :
    (∀ gid game_time now : ℤ,
        should_schedule_prediction gid game_time now = true ↔ now + 75 ≤ game_time)
    ∧ (∀ (now : ℤ) (games : List UpcomingGame) (gid : Option ℤ) (eta : ℤ),
        (gid, eta) ∈ schedule_game_predictions now games ↔
          ∃ g ∈ games, g.id = gid ∧ g.date = some (some (eta + 60)) ∧ now < eta)
    ∧ (∀ (now : ℤ) (games : List UpcomingGame),
        List.Sublist ((schedule_game_predictions now games).map Prod.fst)
          (games.map UpcomingGame.id)) := by
  refine ⟨?_, ?_, ?_⟩
  · intro gid game_time now
    unfold should_schedule_prediction calculate_prediction_time
    split_ifs with h1 h2
    · simp only [Bool.false_eq_true, false_iff]
      omega
    · simp only [Bool.false_eq_true, false_iff]
      omega
    · simp only [true_iff]
      omega
  · intro now games gid eta
    simp only [schedule_game_predictions, List.mem_filterMap, schedule_one_eq_some]
  · intro now games
    induction games with
    | nil => simp [schedule_game_predictions]
    | cons g gs ih =>
      simp only [schedule_game_predictions, List.filterMap_cons, List.map_cons] at *
      cases h : schedule_one now g with
      | none => exact List.Sublist.cons _ ih
      | some p =>
        have hf : p.1 = g.id := by
          rcases p with ⟨pid, peta⟩
          exact ((schedule_one_eq_some now g pid peta).mp h).1.symm
        simp only [List.map_cons]
        rw [← hf]
        exact List.Sublist.cons₂ _ ih

/-- Witness for C2 (amended) at a concrete input: a game 75 minutes out is
scheduled. -/
theorem scheduling_no_due_window_witness :
    should_schedule_prediction 0 135 60 = true :=
  (scheduling_no_due_window.1 0 135 60).mpr (by decide)

/-- Engine result used to exercise the generation pipeline. -/
def c1_engine_result : EngineResult :=
  { agent_id := "langchain-llm-v1"
    game_id := 12345
    pick := "Lakers -4"
    logic := "reasoning"
    confidence := 7/10
    result := "pending" }

/-- Game record used to exercise the generation pipeline. -/
def c1_game_info : GameInfo :=
  { home_team := { id := some 1, name := some "Celtics" }
    visitor_team := { id := some 2, name := some "Lakers" }
    date := some "2025-01-15T00:00:00+00:00" }

/-- Game context for game 12345 with every collaborator call succeeding. -/
def c1_game_data : Option PreparedGameData :=
  prepare_game_data 12345 (Except.ok (some c1_game_info))
    (Except.ok ⟨[]⟩) (Except.ok ⟨[]⟩) (Except.ok []) (Except.ok [])
    (Except.ok []) (Except.ok []) "2025-01-15T00:00:00"

/-- Table after one successful run of the generation pipeline for
`(agent "langchain-llm-v1", game 12345)`, starting from an empty table. -/
def c1_db1 : PredictionsTable :=
  (generate_prediction_once c1_game_data (Except.ok c1_engine_result) ⟨[], 0⟩).2

/-- Table after a second, identical run of the generation pipeline. -/
def c1_db2 : PredictionsTable :=
  (generate_prediction_once c1_game_data (Except.ok c1_engine_result) c1_db1).2

/-- C1: running the full generation pipeline twice for the same
`(agent_id, game_id)` pair inserts two distinct Prediction rows — the
second run draws a fresh UUID and inserts again instead of returning the
existing row unchanged; no idempotency check exists anywhere on the path
(`generate_prediction` → `create_prediction`). -/
theorem generate_prediction_duplicates_rows :
    rows_for c1_db1 "langchain-llm-v1" 12345 = 1
    ∧ rows_for c1_db2 "langchain-llm-v1" 12345 = 2
    ∧ c1_db2.rows.map PredictionRow.id = [0, 1] := by
  decide

/-- Game record used by the aggregation counterexamples. -/
def cx_game_info : GameInfo :=
  { home_team := { id := some 10, name := some "Home" }
    visitor_team := { id := some 20, name := some "Away" }
    date := some "2025-02-01T00:00:00+00:00" }

/-- C4 counterexample: the base Game lookup succeeds and exactly one of the
four sub-fetches fails (home stats raises; away stats, home news+injuries
and away news+injuries all succeed), yet `_prepare_game_data` fails
outright, returning `None` — there is no sentinel and no failure
manifest. -/
theorem aggregation_single_failure_counterexample :
    prepare_game_data 555 (Except.ok (some cx_game_info))
      (Except.error "home stats fetch failed") (Except.ok ⟨["away-stat"]⟩)
      (Except.ok []) (Except.ok []) (Except.ok []) (Except.ok [])
      "2025-02-01" = none := by
  rfl

/-- C4 (amended): a failed news+injuries sub-fetch is absorbed inside the
news service itself, which returns `[]`, so context building succeeds and
generation proceeds — but with a plain empty list (identical to "no
news"), not an explicit unavailable sentinel, and with no failure
manifest; whereas a failed stats sub-fetch makes the whole context build
return `None` and aborts generation. -/
theorem aggregation_partial_tolerance_amended :
    (∀ (gid : ℤ) (gi : GameInfo) (hs as2 : StatsResponse) (an : List Article)
        (hi ai : List InjuryReport) (now_iso e team : String) (tnow days : ℤ),
      (prepare_game_data gid (Except.ok (some gi)) (Except.ok hs) (Except.ok as2)
          (Except.ok (get_recent_news_for_team (Except.error e) team tnow days))
          (Except.ok an) (Except.ok hi) (Except.ok ai) now_iso).map
        (fun gd => gd.unstructured_data.home_team_news) = some [])
    ∧ (∀ (gid : ℤ) (gi : GameInfo) (hs as2 : StatsResponse) (an : List Article)
        (hi ai : List InjuryReport) (now_iso e team : String) (tnow days : ℤ)
        (eng : EngineResult) (db : PredictionsTable),
      (generate_prediction_once
          (prepare_game_data gid (Except.ok (some gi)) (Except.ok hs) (Except.ok as2)
            (Except.ok (get_recent_news_for_team (Except.error e) team tnow days))
            (Except.ok an) (Except.ok hi) (Except.ok ai) now_iso)
          (Except.ok eng) db).1
        = GenOutcome.success
            { id := db.next_uuid, agent_id := eng.agent_id, game_id := eng.game_id
              pick := eng.pick, logic := eng.logic, confidence := eng.confidence
              result := eng.result })
    ∧ (∀ (gid : ℤ) (gi : GameInfo) (e : String) (as2 : StatsResponse)
        (hn an : List Article) (hi ai : List InjuryReport) (now_iso : String),
      prepare_game_data gid (Except.ok (some gi)) (Except.error e) (Except.ok as2)
        (Except.ok hn) (Except.ok an) (Except.ok hi) (Except.ok ai) now_iso = none) := by
  refine ⟨?_, ?_, ?_⟩
  · intro gid gi hs as2 an hi ai now_iso e team tnow days
    rfl
  · intro gid gi hs as2 an hi ai now_iso e team tnow days eng db
    rfl
  · intro gid gi e as2 hn an hi ai now_iso
    rfl

/-- C5 counterexample: the base Game lookup succeeds and only one of the
sub-fetches fails (away stats and all news/injury fetches succeed, as the
second conjunct records), yet `_prepare_game_data` returns the failure
outcome `None` — so the operation fails in more cases than "lookup failed
or every sub-fetch failed". -/
theorem aggregation_total_failure_counterexample :
    (prepare_game_data 777 (Except.ok (some cx_game_info))
      (Except.error "one stats sub-fetch failed") (Except.ok ⟨["ok-stat"]⟩)
      (Except.ok []) (Except.ok []) (Except.ok []) (Except.ok [])
      "2025-02-02" = none)
    ∧ fetchFailed (Except.ok (⟨["ok-stat"]⟩ : StatsResponse)) = false := by
  exact ⟨rfl, rfl⟩

/-- C5 (amended): when the base Game lookup raises, `_prepare_game_data`
returns `None` and `generate_prediction` returns its error summary
without consulting the engine (the outcome is the same for every engine
value and the table is untouched); but the operation returns `None`
exactly when the lookup raises, the game is not found, or ANY of the six
gathered sub-fetches raises — not only when all of them do. -/
theorem aggregation_failure_characterization :
    (∀ (gid : ℤ) (e : String) (hs as2 : Except String StatsResponse)
        (hn an : Except String (List Article))
        (hi ai : Except String (List InjuryReport)) (now_iso : String)
        (eng : Except String EngineResult) (db : PredictionsTable),
      prepare_game_data gid (Except.error e) hs as2 hn an hi ai now_iso = none
      ∧ generate_prediction_once
          (prepare_game_data gid (Except.error e) hs as2 hn an hi ai now_iso) eng db
          = (GenOutcome.errorNoData, db))
    ∧ (∀ (gid : ℤ) (game_lookup : Except String (Option GameInfo))
        (hs as2 : Except String StatsResponse)
        (hn an : Except String (List Article))
        (hi ai : Except String (List InjuryReport)) (now_iso : String),
      prepare_game_data gid game_lookup hs as2 hn an hi ai now_iso = none ↔
        (fetchFailed game_lookup = true ∨ game_lookup = Except.ok none
          ∨ fetchFailed hs = true ∨ fetchFailed as2 = true
          ∨ fetchFailed hn = true ∨ fetchFailed an = true
          ∨ fetchFailed hi = true ∨ fetchFailed ai = true)) := by
  constructor
  · intro gid e hs as2 hn an hi ai now_iso eng db
    exact ⟨rfl, rfl⟩
  · intro gid game_lookup hs as2 hn an hi ai now_iso
    rcases game_lookup with e | og
    · simp [prepare_game_data, fetchFailed]
    rcases og with _ | gi
    · simp [prepare_game_data, fetchFailed]
    rcases hs with e1 | hs <;> rcases as2 with e2 | as2 <;> rcases hn with e3 | hn <;>
      rcases an with e4 | an <;> rcases hi with e5 | hi <;> rcases ai with e6 | ai <;>
      simp [prepare_game_data, fetchFailed]

/-- Witness for C5 (amended): a concrete failed lookup yields `None` and the
generation task short-circuits with the table untouched. -/
theorem aggregation_failure_characterization_witness :
    prepare_game_data 1 (Except.error "lookup down") (Except.ok ⟨[]⟩) (Except.ok ⟨[]⟩)
      (Except.ok []) (Except.ok []) (Except.ok []) (Except.ok []) "t" = none
    ∧ generate_prediction_once
        (prepare_game_data 1 (Except.error "lookup down") (Except.ok ⟨[]⟩) (Except.ok ⟨[]⟩)
          (Except.ok []) (Except.ok []) (Except.ok []) (Except.ok []) "t")
        (Except.error "engine never invoked") ⟨[], 0⟩
        = (GenOutcome.errorNoData, ⟨[], 0⟩) :=
  aggregation_failure_characterization.1 1 "lookup down" (Except.ok ⟨[]⟩) (Except.ok ⟨[]⟩)
    (Except.ok []) (Except.ok []) (Except.ok []) (Except.ok []) "t"
    (Except.error "engine never invoked") ⟨[], 0⟩

/-- C9: whenever `_prepare_game_data` succeeds, the assembled context
carries the hard-coded spread `-3.5` (both at top level and inside
`structured_data`), independent of the game and of all fetched data; and
the prompt's favorite/underdog computation on that context describes the
home team as the 3.5-point favorite. -/
theorem spread_constant_favors_home :
    ∀ (gid : ℤ) (game_lookup : Except String (Option GameInfo))
      (hs as2 : Except String StatsResponse) (hn an : Except String (List Article))
      (hi ai : Except String (List InjuryReport)) (now_iso : String)
      (gd : PreparedGameData),
      prepare_game_data gid game_lookup hs as2 hn an hi ai now_iso = some gd →
        gd.spread = -(7/2)
        ∧ gd.structured_data.spread = -(7/2)
        ∧ favored_description gd.home_team gd.away_team gd.spread
            = (gd.home_team, gd.away_team, 7/2) := by
  intro gid game_lookup hs as2 hn an hi ai now_iso gd h
  rcases game_lookup with e | og
  · simp [prepare_game_data] at h
  rcases og with _ | gi
  · simp [prepare_game_data] at h
  rcases hs with e1 | hs
  · simp [prepare_game_data] at h
  rcases as2 with e2 | as2
  · simp [prepare_game_data] at h
  rcases hn with e3 | hn
  · simp [prepare_game_data] at h
  rcases an with e4 | an
  · simp [prepare_game_data] at h
  rcases hi with e5 | hi
  · simp [prepare_game_data] at h
  rcases ai with e6 | ai
  · simp [prepare_game_data] at h
  simp only [prepare_game_data, Option.some.injEq] at h
  subst h
  refine ⟨rfl, rfl, ?_⟩
  simp only [favored_description]
  rw [if_neg (by norm_num)]
  norm_num

/-- Game record for the C9 witness. -/
def w9_info : GameInfo :=
  { home_team := { id := some 1, name := some "Celtics" }
    visitor_team := { id := some 2, name := some "Knicks" }
    date := some "2025-03-01T00:00:00+00:00" }

/-- Exact context built by `_prepare_game_data` for `w9_info` with empty
fetched payloads. -/
def w9_gd : PreparedGameData :=
  { game_id := 42
    home_team := "Celtics"
    away_team := "Knicks"
    spread := -(7/2)
    game_date := "2025-03-01T00:00:00+00:00"
    structured_data :=
      { home_team_id := some 1, away_team_id := some 2
        home_team_stats := [], away_team_stats := [], spread := -(7/2) }
    unstructured_data :=
      { home_team_news := [], away_team_news := []
        home_team_injuries := [], away_team_injuries := [] } }

/-- Witness for C9 at a concrete context. -/
theorem spread_constant_favors_home_witness :
    w9_gd.spread = -(7/2)
    ∧ w9_gd.structured_data.spread = -(7/2)
    ∧ favored_description w9_gd.home_team w9_gd.away_team w9_gd.spread
        = (w9_gd.home_team, w9_gd.away_team, 7/2) :=
  spread_constant_favors_home 42 (Except.ok (some w9_info)) (Except.ok ⟨[]⟩)
    (Except.ok ⟨[]⟩) (Except.ok []) (Except.ok []) (Except.ok []) (Except.ok [])
    "now" w9_gd rfl

/-- C2 counterexample: with the spec's parameters `lead = 60`,
`lookahead = 15`, a game starting at minute 120 observed at `now = 70`
lies inside the claimed due window `[60, 75)` and has no prediction, yet
neither `should_schedule_prediction` nor `schedule_game_predictions`
treats it as due; moreover the dispatch list follows input order, not
ascending start time. -/
theorem scheduling_due_window_counterexample :
    ((120 : ℤ) - 60 ≤ 70 ∧ (70 : ℤ) < 120 - 60 + 15)
    ∧ should_schedule_prediction 1 120 70 = false
    ∧ schedule_game_predictions 70 [⟨some 1, some (some 120)⟩] = []
    ∧ schedule_game_predictions 0 [⟨some 2, some (some 300)⟩, ⟨some 1, some (some 200)⟩]
        = [(some 2, 240), (some 1, 140)] := by
  decide

/-- C6 counterexample: with an engine that always fails, the first task
execution makes 3 engine attempts, yet automatic retry does NOT stop
there: Celery re-executes the task 3 more times (fixed 180-second
default retry delays, not exponential), for 12 engine attempts in
total — contradicting "at most 3 attempts in total" and "no further
automatic retry after 3 failed attempts". -/
theorem retry_bound_counterexample :
    total_engine_attempts engine_always_fails = 12
    ∧ generate_prediction_task_runs (run_engine_ok engine_always_fails) = 4
    ∧ generate_prediction_retry_delays (run_engine_ok engine_always_fails)
        = [180, 180, 180]
    ∧ 3 < total_engine_attempts engine_always_fails := by
  decide

/-- C6 (amended): the engine call itself (tenacity on `predict`) is retried
with exponential backoff — waits 2s then 4s, at most 3 attempts per task
execution; but on exhaustion the enclosing Celery task is automatically
re-executed up to 3 more times, each retry scheduled by the body's bare
`self.retry` at the fixed 180-second default retry delay (up to 4
executions, 12 engine attempts in total); no FAILED state is recorded and
no due-window condition is checked. -/
theorem retry_layers_amended :
    (∀ ok : ℕ → Bool, (predict_with_retry ok).2.1 ≤ 3)
    ∧ predict_wait 1 = 2
    ∧ predict_wait 2 = 4
    ∧ (∀ ok : ℕ → Bool, (predict_with_retry ok).2.2 = []
        ∨ (predict_with_retry ok).2.2 = [2]
        ∨ (predict_with_retry ok).2.2 = [2, 4])
    ∧ (∀ run_ok : ℕ → Bool, generate_prediction_task_runs run_ok ≤ 4)
    ∧ (∀ run_ok : ℕ → Bool, generate_prediction_retry_delays run_ok
        = List.replicate (generate_prediction_task_runs run_ok - 1) 180)
    ∧ (∀ engine_ok : ℕ → ℕ → Bool, total_engine_attempts engine_ok ≤ 12) := by
  have hw1 : predict_wait 1 = 2 := by
    unfold predict_wait tenacity_wait_exponential; norm_num
  have hw2 : predict_wait 2 = 4 := by
    unfold predict_wait tenacity_wait_exponential; norm_num
  have hatt : ∀ ok : ℕ → Bool, (predict_with_retry ok).2.1 ≤ 3 := by
    intro ok; unfold predict_with_retry; split_ifs <;> simp
  have hruns : ∀ run_ok : ℕ → Bool, generate_prediction_task_runs run_ok ≤ 4 := by
    intro run_ok; unfold generate_prediction_task_runs; split_ifs <;> omega
  refine ⟨hatt, hw1, hw2, ?_, hruns, ?_, ?_⟩
  · intro ok
    unfold predict_with_retry
    split_ifs <;> simp [hw1, hw2]
  · intro run_ok
    unfold generate_prediction_retry_delays
    rw [List.map_const', List.length_range]
  · intro engine_ok
    unfold total_engine_attempts
    refine le_trans (List.sum_le_card_nsmul _ 3 ?_) ?_
    · intro x hx
      simp only [List.mem_map] at hx
      obtain ⟨r, -, rfl⟩ := hx
      exact hatt _
    · simp only [List.length_map, List.length_range, smul_eq_mul]
      have := hruns (run_engine_ok engine_ok)
      omega

/-- Membership characterization of the imminent-game filter of
`reschedule_missed_predictions`. -/
theorem mem_sweep_imminent (now : ℤ) (games : List UpcomingGame) (g : UpcomingGame) :
    g ∈ sweep_imminent now games ↔
      g ∈ games ∧ ∃ d : ℤ, g.date = some (some d) ∧ now < d ∧ d < now + 180 := by
  simp only [sweep_imminent, List.mem_filter]
  refine and_congr_right (fun _ => ?_)
  rcases hd : g.date with _ | od
  · simp [hd]
  rcases od with _ | d
  · simp [hd]
  · simp [hd]

/-- C7 counterexample: the sweep does dispatch exactly one call with a
5-second delay for an imminent game, but the dispatched task is the
ordinary `generate_prediction` task, which Celery retries on failure —
with every run failing it executes 4 times, so an emergency attempt's
second failure is not terminal. -/
theorem emergency_sweep_counterexample :
    reschedule_missed_predictions 0 [⟨some 42, some (some 175)⟩] = [(42, 5)]
    ∧ generate_prediction_task_runs (fun _ => false) = 4
    ∧ 1 < generate_prediction_task_runs (fun _ => false) := by
  decide

/-- C7 (amended): the sweep dispatches one `generate_prediction` call with
`countdown=5` for exactly the games with a truthy (non-zero) id whose
start time lies strictly within the next 3 hours (a game at 2h55m is
dispatched, one at 4h is not), making no check for an existing completed
prediction; but emergency attempts ARE retried: the dispatched task is
auto-retried by Celery on failure (up to 3 retries, each at the
180-second default retry delay), e.g. a first failure is followed by a
second execution. -/
theorem emergency_sweep_amended :
    (∀ (now : ℤ) (games : List UpcomingGame) (gid cd : ℤ),
      (gid, cd) ∈ reschedule_missed_predictions now games ↔
        cd = 5 ∧ gid ≠ 0 ∧ ∃ g ∈ games, g.id = some gid
          ∧ ∃ d : ℤ, g.date = some (some d) ∧ now < d ∧ d < now + 180)
    ∧ (∀ gid game_time now : ℤ,
        (handle_emergency_prediction gid game_time now).1 = true ↔
          now < game_time ∧ game_time - now ≤ 180)
    ∧ reschedule_missed_predictions 0
        [⟨some 7, some (some 175)⟩, ⟨some 8, some (some 240)⟩] = [(7, 5)]
    ∧ (∀ run_ok : ℕ → Bool, generate_prediction_task_runs run_ok ≤ 4)
    ∧ generate_prediction_task_runs (fun n => decide (2 ≤ n)) = 2 := by
  refine ⟨?_, ?_, by decide, ?_, by decide⟩
  · intro now games gid cd
    simp only [reschedule_missed_predictions, List.mem_filterMap]
    constructor
    · rintro ⟨g, hg, hdisp⟩
      have hmem := (mem_sweep_imminent now games g).mp hg
      rcases hid : g.id with _ | game_id
      · rw [hid] at hdisp
        simp at hdisp
      · rw [hid] at hdisp
        have hdisp2 : (if game_id = 0 then (none : Option (ℤ × ℤ))
            else some (game_id, 5)) = some (gid, cd) := hdisp
        split_ifs at hdisp2 with h0
        simp only [Option.some.injEq, Prod.mk.injEq] at hdisp2
        obtain ⟨rfl, rfl⟩ := hdisp2
        exact ⟨rfl, h0, g, hmem.1, hid, hmem.2⟩
    · rintro ⟨rfl, h0, g, hg, hid, d, hdate, h1, h2⟩
      refine ⟨g, (mem_sweep_imminent now games g).mpr ⟨hg, d, hdate, h1, h2⟩, ?_⟩
      rw [hid]
      show (if gid = 0 then (none : Option (ℤ × ℤ)) else some (gid, 5)) = some (gid, 5)
      rw [if_neg h0]
  · intro gid game_time now
    unfold handle_emergency_prediction
    split_ifs with h1 h2 <;> simp <;> omega
  · intro run_ok
    unfold generate_prediction_task_runs
    split_ifs <;> omega

/-- Witness for C7 (amended): a game 2 hours out is an emergency. -/
theorem emergency_sweep_amended_witness :
    (handle_emergency_prediction 9 120 0).1 = true :=
  (emergency_sweep_amended.2.1 9 120 0).mpr (by norm_num)

/-- C8 counterexample: the summary returned by `ingest_nba_data` has keys
`status`, `games_ingested`, `timestamp` — there is no `errors` field —
and a failure does not get logged-and-skipped per record: the whole run
raises (into Celery's task retry) and produces no summary at all. -/
theorem ingestion_summary_counterexample :
    summary_keys (ingest_nba_data (Except.ok ([] : List UpcomingGame)) "t")
      = ["status", "games_ingested", "timestamp"]
    ∧ (summary_keys (ingest_nba_data (Except.ok ([] : List UpcomingGame)) "t")).filter
        (fun k => k == "errors") = []
    ∧ ingest_nba_data (Except.error "one bad record") "t"
        = Except.error "one bad record" := by
  exact ⟨rfl, by decide, rfl⟩

/-- C8 (amended): every successful ingestion run returns the summary
`{status: "success", games_ingested: <count>, timestamp}` — a status and
a count but no errors field — and ingestion has no per-record error
handling: any failure raises out of the task (triggering a retry of the
whole run) instead of being skipped. -/
theorem ingestion_no_errors_field :
    (∀ (games : List UpcomingGame) (ts : String),
      summary_keys (ingest_nba_data (Except.ok games) ts)
        = ["status", "games_ingested", "timestamp"])
    ∧ (∀ (games : List UpcomingGame) (ts : String),
      "errors" ∉ summary_keys (ingest_nba_data (Except.ok games) ts))
    ∧ (∀ (games : List UpcomingGame) (ts : String),
      ingest_nba_data (Except.ok games) ts
        = Except.ok [("status", JsonVal.str "success"),
            ("games_ingested", JsonVal.nat games.length),
            ("timestamp", JsonVal.str ts)])
    ∧ (∀ e ts : String, ingest_nba_data (Except.error e) ts = Except.error e) := by
  refine ⟨fun _ _ => rfl, ?_, fun _ _ => rfl, fun _ _ => rfl⟩
  intro games ts
  have h : summary_keys (ingest_nba_data (Except.ok games) ts)
      = ["status", "games_ingested", "timestamp"] := rfl
  rw [h]
  decide

/-- Witness for C8 (amended) at a concrete run. -/
theorem ingestion_no_errors_field_witness :
    summary_keys (ingest_nba_data (Except.ok ([⟨some 1, some (some 0)⟩] : List UpcomingGame)) "ts")
      = ["status", "games_ingested", "timestamp"] :=
  ingestion_no_errors_field.1 [⟨some 1, some (some 0)⟩] "ts"

end BadBeats
